import Mathlib

/-!
Shallow embedding of the page replacement control plane in
usr/src/uts/common/os/vm_pageout.c: the threshold calculator (setupclock),
the scheduler tick arithmetic (schedpaging), the per-page decision
(checkpage), the asynchronous writeback request pool (queue_io_request and
the pageout master loop), and the watchdog (pageout_deadman).

Machine integers: pgcnt_t / spgcnt_t are 64-bit; all quantities handled by
the claims stay far below 2^63, so page counts are modelled as Nat, and the
one signed intermediate (vavail, clamped into [0, lotsfree] immediately
after the subtraction) as Int.
-/

namespace VMPageout

/-- Base page size in bytes.  sys/param.h is outside this repository; 4096
is the base page size on the supported machines and is the value the spec
scenarios assume (S1: 262144 pages = 1 GiB). -/
def PAGESIZE : Nat := 4096

/-- btop(b): bytes to pages, rounding down. -/
def btop (b : Nat) : Nat := b / PAGESIZE

def MEGABYTES : Nat := 1024 * 1024

def LOTSFREE_MIN_DEFAULT : Nat := 16 * MEGABYTES

def LOTSFREE_MAX_DEFAULT : Nat := 2048 * MEGABYTES

/-- Modelled from the spec: MAXHANDSPREADPAGES lives in a header outside
src/; per the spec constants table it is the number of pages covering
64 MiB. -/
def MAXHANDSPREADPAGES : Nat := btop (64 * MEGABYTES)

/-- Modelled from the spec: DISKRPM lives in a header outside src/; only
the formula maxpgio = DISKRPM*2/3 is visible to the claims, never the
numeric value. -/
def DISKRPM : Nat := 60

def MAX_PSCAN_THREADS : Nat := 16

def SCHEDPAGING_HZ : Nat := 4

def NANOSEC : Nat := 1000000000

/-- static int loopfraction = 2. -/
def loopfraction : Nat := 2

/-- static pgcnt_t maxslowscan = 100. -/
def maxslowscan : Nat := 100

/-- clamp() from vm_pageout.c. -/
def clamp (value minimum maximum : Nat) : Nat :=
  if value < minimum then minimum
  else if value > maximum then maximum
  else value

/-- tune() from vm_pageout.c: an operator value of zero, or a nonzero value
at or above its ceiling, selects the computed default; otherwise the
operator value is returned verbatim. -/
def tune (initval initval_ceiling defval : Nat) : Nat :=
  if initval = 0 ∨ initval ≥ initval_ceiling then defval else initval

/-- The sticky boot-time snapshot of operator tunables (struct clockinit). -/
structure ClockInit where
  ci_lotsfree_min : Nat
  ci_lotsfree_max : Nat
  ci_lotsfree : Nat
  ci_desfree : Nat
  ci_minfree : Nat
  ci_throttlefree : Nat
  ci_pageout_reserve : Nat
  ci_maxpgio : Nat
  ci_maxfastscan : Nat
  ci_fastscan : Nat
  ci_slowscan : Nat
  ci_handspreadpages : Nat
deriving DecidableEq

/-- The globals written by setupclock. -/
structure PageoutGlobals where
  lotsfree_min : Nat
  lotsfree_max : Nat
  lotsfree : Nat
  desfree : Nat
  minfree : Nat
  throttlefree : Nat
  pageout_reserve : Nat
  maxpgio : Nat
  maxfastscan : Nat
  fastscan : Nat
  slowscan : Nat
  handspreadpages : Nat
  des_page_scanners : Nat
  n_page_scanners : Nat
  pscan_region_sz : Nat
deriving DecidableEq

/-- clockinit.ci_init together with the snapshot and the globals. -/
structure SetupState where
  ciInit : Bool
  ci : ClockInit
  g : PageoutGlobals
deriving DecidableEq

/-- The first setupclock call captures the operator-patched globals. -/
def snapshot (g : PageoutGlobals) : ClockInit :=
  { ci_lotsfree_min := g.lotsfree_min
    ci_lotsfree_max := g.lotsfree_max
    ci_lotsfree := g.lotsfree
    ci_desfree := g.desfree
    ci_minfree := g.minfree
    ci_throttlefree := g.throttlefree
    ci_pageout_reserve := g.pageout_reserve
    ci_maxpgio := g.maxpgio
    ci_maxfastscan := g.maxfastscan
    ci_fastscan := g.fastscan
    ci_slowscan := g.slowscan
    ci_handspreadpages := g.handspreadpages }

/-- The clockinit contents in effect for a setupclock call: the boot call
snapshots the globals, every later call reuses the stored snapshot. -/
def effCi (s : SetupState) : ClockInit :=
  if s.ciInit then s.ci else snapshot s.g

/-- Inputs a single setupclock call reads besides the snapshot:
total_pages, pageout_new_spread, lotsfree_fraction, and
pageout_threshold_style == 1. -/
structure SetupIn where
  total_pages : Nat
  spread : Nat
  fraction : Nat
  half : Bool
deriving DecidableEq

/-- lotsfree_max = tune(ci_lotsfree_max, looppages, btop(LOTSFREE_MAX_DEFAULT)). -/
def d_lotsfree_max (ci : ClockInit) (p : SetupIn) : Nat :=
  tune ci.ci_lotsfree_max p.total_pages (btop LOTSFREE_MAX_DEFAULT)

/-- lotsfree_min = tune(ci_lotsfree_min, lotsfree_max, btop(LOTSFREE_MIN_DEFAULT)). -/
def d_lotsfree_min (ci : ClockInit) (p : SetupIn) : Nat :=
  tune ci.ci_lotsfree_min (d_lotsfree_max ci p) (btop LOTSFREE_MIN_DEFAULT)

/-- lotsfree = tune(ci_lotsfree, looppages,
    clamp(looppages / lotsfree_fraction, lotsfree_min, lotsfree_max)). -/
def d_lotsfree (ci : ClockInit) (p : SetupIn) : Nat :=
  tune ci.ci_lotsfree p.total_pages
    (clamp (p.total_pages / p.fraction) (d_lotsfree_min ci p) (d_lotsfree_max ci p))

/-- desfree = tune(ci_desfree, lotsfree, lotsfree / 2). -/
def d_desfree (ci : ClockInit) (p : SetupIn) : Nat :=
  tune ci.ci_desfree (d_lotsfree ci p) (d_lotsfree ci p / 2)

/-- minfree = tune(ci_minfree, desfree, half ? desfree/2 : 3*desfree/4). -/
def d_minfree (ci : ClockInit) (p : SetupIn) : Nat :=
  tune ci.ci_minfree (d_desfree ci p)
    (if p.half then d_desfree ci p / 2 else 3 * d_desfree ci p / 4)

/-- throttlefree = tune(ci_throttlefree, desfree, minfree). -/
def d_throttlefree (ci : ClockInit) (p : SetupIn) : Nat :=
  tune ci.ci_throttlefree (d_desfree ci p) (d_minfree ci p)

/-- pageout_reserve = tune(ci_pageout_reserve, throttlefree,
    half ? throttlefree/2 : 3*throttlefree/4). -/
def d_pageout_reserve (ci : ClockInit) (p : SetupIn) : Nat :=
  tune ci.ci_pageout_reserve (d_throttlefree ci p)
    (if p.half then d_throttlefree ci p / 2 else 3 * d_throttlefree ci p / 4)

/-- maxpgio = ci_maxpgio == 0 ? (DISKRPM*2)/3 : ci_maxpgio. -/
def d_maxpgio (ci : ClockInit) : Nat :=
  if ci.ci_maxpgio = 0 then DISKRPM * 2 / 3 else ci.ci_maxpgio

/-- maxfastscan: default is pageout_new_spread once nonzero, else
MAXHANDSPREADPAGES. -/
def d_maxfastscan (ci : ClockInit) (p : SetupIn) : Nat :=
  if ci.ci_maxfastscan = 0 then
    (if p.spread ≠ 0 then p.spread else MAXHANDSPREADPAGES)
  else ci.ci_maxfastscan

/-- fastscan: default MIN(looppages / loopfraction, maxfastscan), and in
either case capped afterwards at looppages / loopfraction. -/
def d_fastscan (ci : ClockInit) (p : SetupIn) : Nat :=
  let fs := if ci.ci_fastscan = 0 then
      min (p.total_pages / loopfraction) (d_maxfastscan ci p)
    else ci.ci_fastscan
  if fs > p.total_pages / loopfraction then p.total_pages / loopfraction else fs

/-- slowscan: default MIN(fastscan / 10, maxslowscan), and in either case
capped afterwards at fastscan / 2. -/
def d_slowscan (ci : ClockInit) (p : SetupIn) : Nat :=
  let ss := if ci.ci_slowscan = 0 then min (d_fastscan ci p / 10) maxslowscan
    else ci.ci_slowscan
  if ss > d_fastscan ci p / 2 then d_fastscan ci p / 2 else ss

/-- handspreadpages: default fastscan, and in either case capped afterwards
at looppages - 1. -/
def d_handspreadpages (ci : ClockInit) (p : SetupIn) : Nat :=
  let hsp := if ci.ci_handspreadpages = 0 then d_fastscan ci p
    else ci.ci_handspreadpages
  if hsp ≥ p.total_pages then p.total_pages - 1 else hsp

/-- The scanner-count sizing loop of setupclock:
tmp = sz; for (i = 1; tmp < total_pages; i++) tmp += sz.
The 0 < sz conjunct only discharges termination; on the inputs setupclock
feeds it, sz = 0 forces total_pages = 0 and the loop body never runs. -/
def scanLoop (sz total tmp i : Nat) : Nat :=
  if h : tmp < total ∧ 0 < sz then scanLoop sz total (tmp + sz) (i + 1) else i
termination_by total - tmp
decreasing_by omega

/-- The recalculation-time region size: a 64 GiB default, doubled
handspreadpages when 64 GiB (in pages) is smaller than handspreadpages,
then clamped down to total_pages (recorded in pscan_region_sz). -/
def d_region (ci : ClockInit) (p : SetupIn) : Nat :=
  let sz := btop (64 * 1073741824)
  let sz := if sz < d_handspreadpages ci p then d_handspreadpages ci p * 2 else sz
  if sz > p.total_pages then p.total_pages else sz

/-- The recalculation-time desired scanner count: the sizing loop result
clamped at MAX_PSCAN_THREADS. -/
def d_des_scanners (ci : ClockInit) (p : SetupIn) : Nat :=
  let sz := d_region ci p
  let i := scanLoop sz p.total_pages sz 1
  if i > MAX_PSCAN_THREADS then MAX_PSCAN_THREADS else i

/-- setupclock() from vm_pageout.c as a state transformer: the boot call
(ci_init still false) snapshots the operator globals and leaves
des_page_scanners = n_page_scanners = 1; every later call recalculates
from the snapshot and resizes the scanner pool. -/
def setupclock (p : SetupIn) (s : SetupState) : SetupState :=
  let ci := effCi s
  if s.ciInit then
    { ciInit := true, ci := ci,
      g := { lotsfree_min := d_lotsfree_min ci p
             lotsfree_max := d_lotsfree_max ci p
             lotsfree := d_lotsfree ci p
             desfree := d_desfree ci p
             minfree := d_minfree ci p
             throttlefree := d_throttlefree ci p
             pageout_reserve := d_pageout_reserve ci p
             maxpgio := d_maxpgio ci
             maxfastscan := d_maxfastscan ci p
             fastscan := d_fastscan ci p
             slowscan := d_slowscan ci p
             handspreadpages := d_handspreadpages ci p
             des_page_scanners := d_des_scanners ci p
             n_page_scanners := s.g.n_page_scanners
             pscan_region_sz := d_region ci p } }
  else
    { ciInit := true, ci := ci,
      g := { lotsfree_min := d_lotsfree_min ci p
             lotsfree_max := d_lotsfree_max ci p
             lotsfree := d_lotsfree ci p
             desfree := d_desfree ci p
             minfree := d_minfree ci p
             throttlefree := d_throttlefree ci p
             pageout_reserve := d_pageout_reserve ci p
             maxpgio := d_maxpgio ci
             maxfastscan := d_maxfastscan ci p
             fastscan := d_fastscan ci p
             slowscan := d_slowscan ci p
             handspreadpages := d_handspreadpages ci p
             des_page_scanners := 1
             n_page_scanners := 1
             pscan_region_sz := p.total_pages } }

/-- min_pageout_nsec as established by pageout_scanner from
min_percent_cpu: MAX(1, NANOSEC * min_percent_cpu / 100 / SCHEDPAGING_HZ). -/
def minPageoutNsec (minPercentCpu : Nat) : Nat :=
  max 1 (NANOSEC * minPercentCpu / 100 / SCHEDPAGING_HZ)

/-- max_pageout_nsec as established by pageout_scanner from
max_percent_cpu: MAX(min_pageout_nsec, NANOSEC * max_percent_cpu / 100 /
SCHEDPAGING_HZ). -/
def maxPageoutNsec (minPercentCpu maxPercentCpu : Nat) : Nat :=
  max (minPageoutNsec minPercentCpu) (NANOSEC * maxPercentCpu / 100 / SCHEDPAGING_HZ)

/-- The nz() macro: nonzero value, or one. -/
def nz (x : Nat) : Nat := if x ≠ 0 then x else 1

/-- Inputs read by one schedpaging() tick. -/
structure SchedIn where
  freemem : Nat
  deficit : Nat
  needfree : Nat
  lotsfree : Nat
  slowscan : Nat
  fastscan : Nat
  total_pages : Nat
  spread : Nat
  sampleCnt : Nat
  sampleLim : Nat
  zoneNumOverCap : Nat
  minNsec : Nat
  maxNsec : Nat
  zoneNsec : Nat
deriving DecidableEq

/-- vavail: freemem - deficit, minus needfree once pageout_new_spread is
nonzero, clamped into [0, lotsfree].  The spgcnt_t subtraction is done in
Int and the negative case clamped away exactly as the source does. -/
def schedVavail (s : SchedIn) : Nat :=
  Int.toNat (min (max ((s.freemem : Int) - (s.deficit : Int) -
    (if s.spread ≠ 0 then (s.needfree : Int) else 0)) 0) (s.lotsfree : Int))

/-- The desscan computation of schedpaging(): full speed while needfree is
outstanding before calibration, otherwise the slowscan/fastscan
interpolation. -/
def schedDesscan (s : SchedIn) : Nat :=
  if s.needfree > 0 ∧ s.spread = 0 then s.fastscan / SCHEDPAGING_HZ
  else
    (s.slowscan * schedVavail s + s.fastscan * (s.lotsfree - schedVavail s)) /
      nz s.lotsfree / SCHEDPAGING_HZ

/-- The pageout_nsec computation of schedpaging(): the maximum before
calibration, otherwise interpolated between min and max. -/
def schedNsec (s : SchedIn) : Nat :=
  if s.spread = 0 then s.maxNsec
  else s.minNsec + (s.lotsfree - schedVavail s) * (s.maxNsec - s.minNsec) /
    nz s.lotsfree

/-- What one schedpaging() tick publishes. -/
structure SchedOut where
  desscan : Nat
  pageout_nsec : Nat
  zones_over : Bool
deriving DecidableEq

/-- One schedpaging() tick: the published desscan / pageout_nsec pair and
the zones_over latch.  The reap callbacks, scanner-pool resizing and
condition-variable traffic have no effect on these three outputs and are
omitted. -/
def schedTick (s : SchedIn) : SchedOut :=
  if s.freemem < s.lotsfree + s.needfree ∨ s.sampleCnt < s.sampleLim then
    { desscan := schedDesscan s, pageout_nsec := schedNsec s, zones_over := false }
  else if s.zoneNumOverCap > 0 then
    { desscan := s.total_pages
      pageout_nsec := if s.zoneNsec ≠ 0 then s.zoneNsec else s.maxNsec
      zones_over := true }
  else
    { desscan := schedDesscan s, pageout_nsec := schedNsec s, zones_over := false }

/-- Counting abstraction of the async request pool: the lengths of
req_freelist and push_list, the push_list_size counter (which still counts
a request the master has popped but not yet returned), and the
pageout_pushing flag. -/
structure Pool where
  freelist : Nat
  pending : Nat
  pushListSize : Nat
  inflight : Bool
deriving DecidableEq

/-- static int async_list_size = 256. -/
def asyncListSize : Nat := 256

/-- The pool as built by pageout(): every slot of the kmem_zalloc'd array
linked onto the freelist, nothing pending, nothing in flight. -/
def initPool : Pool :=
  { freelist := asyncListSize, pending := 0, pushListSize := 0, inflight := false }

/-- queue_io_request(): under push_lock, pop a freelist slot (returning 0
with the pool untouched when none is left), push it on the pending list and
bump push_list_size, returning 1. -/
def queue_io_request (p : Pool) : Nat × Pool :=
  if p.freelist = 0 then (0, p)
  else (1, { freelist := p.freelist - 1, pending := p.pending + 1,
             pushListSize := p.pushListSize + 1, inflight := p.inflight })

/-- The under-push_lock transitions of the request pool: a
queue_io_request call; the master popping the pending head and raising
pageout_pushing before VOP_PUTPAGE (a single master thread, so nothing is
in flight when it pops); and the master returning the slot to the freelist
and decrementing push_list_size afterwards. -/
inductive PoolStep : Pool → Pool → Prop
  | queue (p : Pool) : PoolStep p (queue_io_request p).2
  | dequeue (p : Pool) (hp : 0 < p.pending) (hf : p.inflight = false) :
      PoolStep p { freelist := p.freelist, pending := p.pending - 1,
                   pushListSize := p.pushListSize, inflight := true }
  | complete (p : Pool) (hf : p.inflight = true) :
      PoolStep p { freelist := p.freelist + 1, pending := p.pending,
                   pushListSize := p.pushListSize - 1, inflight := false }

/-- The bookkeeping balance of the request pool. -/
abbrev PoolInv (p : Pool) : Prop :=
  p.freelist + p.pending + (if p.inflight then 1 else 0) = asyncListSize ∧
  p.pushListSize = p.pending + (if p.inflight then 1 else 0)

inductive PoHand
  | front
  | back
deriving DecidableEq

inductive CkResult
  | ineligible
  | notFreed
  | freed
deriving DecidableEq

/-- The P_REF / P_MOD attribute bits returned by hat_pagesync and
hat_page_getattr. -/
structure Attrs where
  ref : Bool
  mod : Bool
deriving DecidableEq

/-- Everything one checkpage call observes about its page: the lock-free
reads, the re-reads after taking the exclusive lock, and the results of the
HAT calls in program order (hat_pagesync, hat_page_getattr after a
successful demotion, hat_page_getattr after each hat_pageunload). -/
structure PageEnv where
  iskas : Bool
  pageLocked : Bool
  isfree1 : Bool
  lckcnt1 : Nat
  cowcnt1 : Nat
  shareOverPoShare : Bool
  trylockOk : Bool
  isfree2 : Bool
  lckcnt2 : Nat
  cowcnt2 : Nat
  zoneid : Option Nat
  zoneOverCap : Bool
  hasVnode : Bool
  szc : Nat
  demoteOk : Bool
  syncAttrs : Attrs
  demoteAttrs : Attrs
  unloadAttrs : List Attrs
deriving DecidableEq

/-- The page-visible actions of checkpage, in program order: page_unlock,
hat_clrref, VN_HOLD, VN_RELE, a successful queue_io_request handoff, and
VN_DISPOSE (which consumes the exclusive lock). -/
inductive PEvent
  | unlock
  | clrref
  | vnhold
  | vnrele
  | queue
  | dispose
deriving DecidableEq

/-- checkpage from the dirty-page test (the code just after the p_szc
block) onwards: the P_MOD writeback handoff, then hat_pageunload with a
re-read of the attributes.  When the re-read still shows REF, or MOD with
a vnode, the source does goto recheck, which tests P_REF first (p_szc is
zero by then, either originally or because the demotion zeroed it) and
falls back into this dirty test.  Returns none when the supplied list of
post-unload attribute reads runs out. -/
def ckDirty (hand : PoHand) (env : PageEnv) (pool : Pool) :
    Attrs → List Attrs → Option (CkResult × List PEvent × Pool)
  | attrs, unloads =>
    if attrs.mod = true ∧ env.hasVnode = true then
      if (queue_io_request pool).1 = 0 then
        some (.notFreed, [.vnhold, .unlock, .vnrele], (queue_io_request pool).2)
      else
        some (.freed, [.vnhold, .unlock, .queue], (queue_io_request pool).2)
    else
      match unloads with
      | [] => none
      | a :: rest =>
        if a.ref = true ∨ (a.mod = true ∧ env.hasVnode = true) then
          -- goto recheck: P_REF is tested first on the re-read attributes
          if a.ref then
            some (.notFreed,
              (if hand = .front then [.clrref] else []) ++ [.unlock], pool)
          else ckDirty hand env pool a rest
        else
          some (.freed, [.dispose], pool)

/-- checkpage from the hat_pagesync call onwards: the recheck of the
synced attributes, then the large-page demotion attempt.  After a
successful demotion the source reloads the attributes and falls through to
the dirty-page test without re-testing P_REF. -/
def ckEntry (hand : PoHand) (env : PageEnv) (pool : Pool) :
    Option (CkResult × List PEvent × Pool) :=
  if env.syncAttrs.ref then
    some (.notFreed, (if hand = .front then [.clrref] else []) ++ [.unlock], pool)
  else if env.szc ≠ 0 then
    if env.demoteOk then ckDirty hand env pool env.demoteAttrs env.unloadAttrs
    else some (.ineligible, [.unlock], pool)
  else ckDirty hand env pool env.syncAttrs env.unloadAttrs

/-- checkpage(): classify one page under the given hand, returning the
result, the trace of page-visible actions, and the updated writeback pool.
The isexec / isfs flags and per-zone counters only feed statistics and are
omitted. -/
def checkpage (zonesOver : Bool) (env : PageEnv) (hand : PoHand)
    (pool : Pool) : Option (CkResult × List PEvent × Pool) :=
  if env.iskas = true ∨ env.pageLocked = true ∨ env.isfree1 = true ∨
      env.lckcnt1 ≠ 0 ∨ env.cowcnt1 ≠ 0 ∨ env.shareOverPoShare = true then
    some (.ineligible, [], pool)
  else if env.trylockOk = false then
    some (.ineligible, [], pool)
  else if env.isfree2 = true then
    some (.ineligible, [.unlock], pool)
  else if env.lckcnt2 ≠ 0 ∨ env.cowcnt2 ≠ 0 then
    some (.ineligible, [.unlock], pool)
  else if zonesOver = true ∧ (env.zoneid = none ∨ env.zoneOverCap = false) then
    some (.ineligible, [.unlock], pool)
  else ckEntry hand env pool

/-- The lock-free fast rejection at the top of checkpage. -/
abbrev fastReject (env : PageEnv) : Prop :=
  env.iskas = true ∨ env.pageLocked = true ∨ env.isfree1 = true ∨
  env.lckcnt1 ≠ 0 ∨ env.cowcnt1 ≠ 0 ∨ env.shareOverPoShare = true

/-- The page passes every gate of checkpage before hat_pagesync. -/
abbrev reachesSync (zonesOver : Bool) (env : PageEnv) : Prop :=
  ¬ fastReject env ∧ env.trylockOk = true ∧ env.isfree2 = false ∧
  env.lckcnt2 = 0 ∧ env.cowcnt2 = 0 ∧
  (zonesOver = true → env.zoneid ≠ none ∧ env.zoneOverCap = true)

/-- All clockinit threshold tunables are zero (no operator override). -/
abbrev CiZero (ci : ClockInit) : Prop :=
  ci.ci_lotsfree_min = 0 ∧ ci.ci_lotsfree_max = 0 ∧ ci.ci_lotsfree = 0 ∧
  ci.ci_desfree = 0 ∧ ci.ci_minfree = 0 ∧ ci.ci_throttlefree = 0 ∧
  ci.ci_pageout_reserve = 0 ∧ ci.ci_maxfastscan = 0 ∧ ci.ci_fastscan = 0 ∧
  ci.ci_slowscan = 0 ∧ ci.ci_handspreadpages = 0

/-- The operator-override contract of tune(): nonzero below the ceiling is
honored verbatim; zero, or at/above the ceiling, selects the default. -/
abbrev tuneSpec (v ceiling defval eff : Nat) : Prop :=
  (v ≠ 0 → v < ceiling → eff = v) ∧ ((v = 0 ∨ ceiling ≤ v) → eff = defval)

/-- The override contract for the seven ceiling-guarded thresholds, with
the operator values taken from the boot-time globals g0 and the effective
values from the globals g a setupclock call produced. -/
abbrev tuneSpecBlock (g0 : PageoutGlobals) (p : SetupIn)
    (g : PageoutGlobals) : Prop :=
  tuneSpec g0.lotsfree_max p.total_pages
    (btop LOTSFREE_MAX_DEFAULT) g.lotsfree_max ∧
  tuneSpec g0.lotsfree_min g.lotsfree_max
    (btop LOTSFREE_MIN_DEFAULT) g.lotsfree_min ∧
  tuneSpec g0.lotsfree p.total_pages
    (clamp (p.total_pages / p.fraction) g.lotsfree_min g.lotsfree_max)
    g.lotsfree ∧
  tuneSpec g0.desfree g.lotsfree (g.lotsfree / 2) g.desfree ∧
  tuneSpec g0.minfree g.desfree
    (if p.half then g.desfree / 2 else 3 * g.desfree / 4) g.minfree ∧
  tuneSpec g0.throttlefree g.desfree g.minfree g.throttlefree ∧
  tuneSpec g0.pageout_reserve g.throttlefree
    (if p.half then g.throttlefree / 2 else 3 * g.throttlefree / 4)
    g.pageout_reserve

/-- pageout_deadman bookkeeping: pageout_stucktime and
pageout_pushcount_seen. -/
structure DeadmanState where
  stucktime : Nat
  seen : Nat
deriving DecidableEq

/-- pageout_deadman(): run once per second from clock(); returns whether it
panics, together with the updated bookkeeping. -/
def pageout_deadman (panicking : Bool) (deadmanSeconds : Nat)
    (pushing : Bool) (pushcount : Nat) (st : DeadmanState) :
    Bool × DeadmanState :=
  if panicking then (false, st)
  else if deadmanSeconds = 0 then (false, st)
  else if pushing = false then (false, { stucktime := 0, seen := pushcount })
  else if pushcount ≠ st.seen then (false, { stucktime := 0, seen := pushcount })
  else if deadmanSeconds ≤ st.stucktime + 1 then
    (true, { stucktime := st.stucktime + 1, seen := st.seen })
  else
    (false, { stucktime := st.stucktime + 1, seen := st.seen })

/-- One deadman second with constant inputs (a push permanently in flight
and a pushcount that never moves). -/
def deadmanStuckStep (deadmanSeconds pushcount : Nat) (st : DeadmanState) :
    DeadmanState :=
  (pageout_deadman false deadmanSeconds true pushcount st).2

/-- All-zero globals: the state of the tunables before any operator patch. -/
def zeroGlobals : PageoutGlobals :=
  { lotsfree_min := 0, lotsfree_max := 0, lotsfree := 0, desfree := 0,
    minfree := 0, throttlefree := 0, pageout_reserve := 0, maxpgio := 0,
    maxfastscan := 0, fastscan := 0, slowscan := 0, handspreadpages := 0,
    des_page_scanners := 0, n_page_scanners := 0, pscan_region_sz := 0 }

/-- An all-zero snapshot. -/
def zeroCi : ClockInit := snapshot zeroGlobals

/-- The boot state with nothing patched by the operator. -/
def bootZeroState : SetupState :=
  { ciInit := false, ci := zeroCi, g := zeroGlobals }

/-- A recalculation state: snapshot taken, handspreadpages patched by the
operator to exactly the 64 GiB page count. -/
def recalcHspState : SetupState :=
  { ciInit := true
    ci := { zeroCi with ci_handspreadpages := 16777216 }
    g := zeroGlobals }

/-- Globals with a single operator override: lotsfree patched to 5000. -/
def lotsfree5000Globals : PageoutGlobals :=
  { zeroGlobals with lotsfree := 5000 }

/-- The spec's S3 pressure-interpolation tick. -/
def s3Tick : SchedIn :=
  ⟨2000, 0, 0, 4000, 500, 5000, 262144, 1, 4, 4, 0, 1, 10, 0⟩

/-- A tick under memory pressure with slowscan ≤ fastscan and a sane
duty-cycle window. -/
def lowMemTick : SchedIn :=
  ⟨2000, 0, 0, 4000, 500, 5000, 262144, 1, 4, 4, 0, 1, 10, 0⟩

/-- A tick with a zone over its cap and ample free memory. -/
def zoneCapTick : SchedIn :=
  ⟨100000, 0, 0, 4000, 500, 5000, 262144, 1, 4, 4, 1, 1, 10, 0⟩

/-- A clean referenced page as seen by the scanner. -/
def envRefFront : PageEnv :=
  { iskas := false, pageLocked := false, isfree1 := false, lckcnt1 := 0,
    cowcnt1 := 0, shareOverPoShare := false, trylockOk := true,
    isfree2 := false, lckcnt2 := 0, cowcnt2 := 0, zoneid := none,
    zoneOverCap := false, hasVnode := false, szc := 0, demoteOk := false,
    syncAttrs := ⟨true, false⟩, demoteAttrs := ⟨false, false⟩,
    unloadAttrs := [] }

/-- A clean dirty page with a vnode, as seen by the back hand. -/
def envDirty : PageEnv :=
  { iskas := false, pageLocked := false, isfree1 := false, lckcnt1 := 0,
    cowcnt1 := 0, shareOverPoShare := false, trylockOk := true,
    isfree2 := false, lckcnt2 := 0, cowcnt2 := 0, zoneid := none,
    zoneOverCap := false, hasVnode := true, szc := 0, demoteOk := false,
    syncAttrs := ⟨false, true⟩, demoteAttrs := ⟨false, false⟩,
    unloadAttrs := [] }

/-- A vnode-backed large page whose demotion succeeds and whose reloaded
attributes show both REF and MOD. -/
def envDemoteRef : PageEnv :=
  { iskas := false, pageLocked := false, isfree1 := false, lckcnt1 := 0,
    cowcnt1 := 0, shareOverPoShare := false, trylockOk := true,
    isfree2 := false, lckcnt2 := 0, cowcnt2 := 0, zoneid := none,
    zoneOverCap := false, hasVnode := true, szc := 1, demoteOk := true,
    syncAttrs := ⟨false, false⟩, demoteAttrs := ⟨true, true⟩,
    unloadAttrs := [] }

theorem tune_of_pos (v c d : Nat) (hv : v ≠ 0) (hc : v < c) : tune v c d = v := by
  unfold tune
  rw [if_neg]
  omega

theorem tune_of_default (v c d : Nat) (h : v = 0 ∨ c ≤ v) : tune v c d = d := by
  unfold tune
  rw [if_pos]
  omega

theorem tune_zero (c d : Nat) : tune 0 c d = d :=
  tune_of_default 0 c d (Or.inl rfl)

theorem tune_tuneSpec (v c d : Nat) : tuneSpec v c d (tune v c d) :=
  ⟨fun hv hc => tune_of_pos v c d hv hc, fun h => tune_of_default v c d h⟩

theorem setupclock_ciInit (p : SetupIn) (s : SetupState) :
    (setupclock p s).ciInit = true := by
  unfold setupclock
  by_cases h : s.ciInit <;> simp [h]

theorem setupclock_ci (p : SetupIn) (s : SetupState) :
    (setupclock p s).ci = effCi s := by
  unfold setupclock
  by_cases h : s.ciInit <;> simp [h]

/-- Every setupclock call writes the twelve threshold globals from the
effective snapshot via the d_* derivations, on the boot path and the
recalculation path alike. -/
theorem setupclock_g_thresholds (p : SetupIn) (s : SetupState) :
    (setupclock p s).g.lotsfree_min = d_lotsfree_min (effCi s) p ∧
    (setupclock p s).g.lotsfree_max = d_lotsfree_max (effCi s) p ∧
    (setupclock p s).g.lotsfree = d_lotsfree (effCi s) p ∧
    (setupclock p s).g.desfree = d_desfree (effCi s) p ∧
    (setupclock p s).g.minfree = d_minfree (effCi s) p ∧
    (setupclock p s).g.throttlefree = d_throttlefree (effCi s) p ∧
    (setupclock p s).g.pageout_reserve = d_pageout_reserve (effCi s) p ∧
    (setupclock p s).g.maxpgio = d_maxpgio (effCi s) ∧
    (setupclock p s).g.maxfastscan = d_maxfastscan (effCi s) p ∧
    (setupclock p s).g.fastscan = d_fastscan (effCi s) p ∧
    (setupclock p s).g.slowscan = d_slowscan (effCi s) p ∧
    (setupclock p s).g.handspreadpages = d_handspreadpages (effCi s) p := by
  unfold setupclock
  by_cases h : s.ciInit <;> simp [h]

/-- The scanner sizing fields: the boot call pins them at one scanner over
the whole clock face, a recalculation call derives them. -/
theorem setupclock_g_scanners (p : SetupIn) (s : SetupState) :
    (s.ciInit = true →
      (setupclock p s).g.des_page_scanners = d_des_scanners (effCi s) p ∧
      (setupclock p s).g.pscan_region_sz = d_region (effCi s) p ∧
      (setupclock p s).g.n_page_scanners = s.g.n_page_scanners) ∧
    (s.ciInit = false →
      (setupclock p s).g.des_page_scanners = 1 ∧
      (setupclock p s).g.n_page_scanners = 1 ∧
      (setupclock p s).g.pscan_region_sz = p.total_pages) := by
  unfold setupclock
  by_cases h : s.ciInit <;> simp [h]

/-- One iteration of the ceiling count: for 1 ≤ d,
(d + sz - 1) / sz = (d - sz + sz - 1) / sz + 1. -/
theorem ceil_step (d sz : Nat) (hsz : 0 < sz) (hd : 1 ≤ d) :
    (d + sz - 1) / sz = (d - sz + sz - 1) / sz + 1 := by
  by_cases h : sz ≤ d
  · have e1 : d - sz + sz - 1 = d - 1 := by omega
    have e2 : d + sz - 1 = (d - 1) + sz := by omega
    rw [e1, e2, Nat.add_div_right _ hsz]
  · have e1 : d - sz + sz - 1 = sz - 1 := by omega
    have e2 : d + sz - 1 = (d - 1) + sz := by omega
    rw [e1, e2, Nat.add_div_right _ hsz]
    have h3 : (d - 1) / sz = 0 := Nat.div_eq_of_lt (by omega)
    have h4 : (sz - 1) / sz = 0 := Nat.div_eq_of_lt (by omega)
    omega

/-- Closed form of the sizing loop: starting from tmp, it adds
⌈(total - tmp) / sz⌉ to i. -/
theorem scanLoop_closed (sz : Nat) (hsz : 0 < sz) :
    ∀ k total tmp i, total - tmp ≤ k →
      scanLoop sz total tmp i = i + (total - tmp + sz - 1) / sz := by
  intro k
  induction k with
  | zero =>
    intro total tmp i hk
    rw [scanLoop, dif_neg (by omega)]
    have h2 : total - tmp = 0 := by omega
    have h3 : (0 + sz - 1) / sz = 0 := Nat.div_eq_of_lt (by omega)
    rw [h2, h3]
    omega
  | succ k ih =>
    intro total tmp i hk
    rw [scanLoop]
    by_cases hc : tmp < total
    · rw [dif_pos ⟨hc, hsz⟩, ih total (tmp + sz) (i + 1) (by omega)]
      rw [show total - (tmp + sz) = total - tmp - sz by omega]
      rw [ceil_step (total - tmp) sz hsz (by omega)]
      generalize (total - tmp - sz + sz - 1) / sz = q
      omega
    · rw [dif_neg (by omega)]
      have h2 : total - tmp = 0 := by omega
      have h3 : (0 + sz - 1) / sz = 0 := Nat.div_eq_of_lt (by omega)
      rw [h2, h3]
      omega

/-- The sizing loop as run by setupclock computes ⌈total / sz⌉. -/
theorem scanLoop_ceil (sz total : Nat) (hsz : 0 < sz) (ht : 0 < total) :
    scanLoop sz total sz 1 = (total + sz - 1) / sz := by
  rw [scanLoop_closed sz hsz (total - sz) total sz 1 (le_refl _)]
  rw [ceil_step total sz hsz (by omega)]
  generalize (total - sz + sz - 1) / sz = q
  omega

/-- The recalculation region size, as a clamp of the 64 GiB default
(doubled handspreadpages only when handspreadpages alone exceeds it). -/
theorem d_region_min (ci : ClockInit) (p : SetupIn) :
    d_region ci p =
      min (if btop (64 * 1073741824) < d_handspreadpages ci p then
            d_handspreadpages ci p * 2
          else btop (64 * 1073741824)) p.total_pages := by
  unfold d_region
  rcases Nat.lt_or_ge (btop (64 * 1073741824)) (d_handspreadpages ci p) with h | h
  · simp only [if_pos h]
    split <;> omega
  · simp only [if_neg (Nat.not_lt.mpr h)]
    split <;> omega

theorem d_region_pos (ci : ClockInit) (p : SetupIn) (hT : 0 < p.total_pages) :
    0 < d_region ci p := by
  rw [d_region_min]
  have hb : btop (64 * 1073741824) = 16777216 := by decide
  split <;> omega

theorem d_region_le (ci : ClockInit) (p : SetupIn) :
    d_region ci p ≤ p.total_pages := by
  rw [d_region_min]
  omega

/-- The desired scanner count, as a ceiling division clamped at
MAX_PSCAN_THREADS. -/
theorem d_des_scanners_eq (ci : ClockInit) (p : SetupIn)
    (hT : 0 < p.total_pages) :
    d_des_scanners ci p =
      min ((p.total_pages + d_region ci p - 1) / d_region ci p)
        MAX_PSCAN_THREADS := by
  have hsz := d_region_pos ci p hT
  simp only [d_des_scanners]
  rw [scanLoop_ceil _ _ hsz hT]
  split <;> omega

theorem three_quarters_le (t : Nat) : 3 * t / 4 ≤ t := by omega

/-- C1 (amended): with no operator overrides in effect, any
lotsfree_fraction ≥ 1 and total_pages at least btop(16 MiB), every
setupclock call (boot or recalculation) leaves the thresholds in the chain
pageout_reserve ≤ throttlefree ≤ minfree ≤ desfree ≤ lotsfree ≤
total_pages, with slowscan ≤ fastscan/2, 1 ≤ handspreadpages <
total_pages, and min_pageout_nsec ≤ max_pageout_nsec for any duty-cycle
percentages. -/
theorem c1_threshold_chain (p : SetupIn) (s st : SetupState)
    (minPct maxPct : Nat)
    (hst : st = setupclock p s)
    (hz : CiZero (effCi s)) (_hfr : 1 ≤ p.fraction)
    (hT : btop LOTSFREE_MIN_DEFAULT ≤ p.total_pages) :
    st.g.pageout_reserve ≤ st.g.throttlefree ∧
    st.g.throttlefree ≤ st.g.minfree ∧
    st.g.minfree ≤ st.g.desfree ∧
    st.g.desfree ≤ st.g.lotsfree ∧
    st.g.lotsfree ≤ p.total_pages ∧
    st.g.slowscan ≤ st.g.fastscan / 2 ∧
    1 ≤ st.g.handspreadpages ∧ st.g.handspreadpages < p.total_pages ∧
    minPageoutNsec minPct ≤ maxPageoutNsec minPct maxPct := by
  subst hst
  obtain ⟨hz1, hz2, hz3, hz4, hz5, hz6, hz7, hz8, hz9, hz10, hz11⟩ := hz
  obtain ⟨g1, g2, g3, g4, g5, g6, g7, g8, g9, g10, g11, g12⟩ :=
    setupclock_g_thresholds p s
  have hbmin : btop LOTSFREE_MIN_DEFAULT = 4096 := by decide
  rw [hbmin] at hT
  have e_max : d_lotsfree_max (effCi s) p = 524288 := by
    unfold d_lotsfree_max
    rw [hz2, tune_zero]
    decide
  have e_min : d_lotsfree_min (effCi s) p = 4096 := by
    unfold d_lotsfree_min
    rw [hz1, tune_zero]
    decide
  have e_lots : d_lotsfree (effCi s) p =
      clamp (p.total_pages / p.fraction) 4096 524288 := by
    unfold d_lotsfree
    rw [hz3, tune_zero, e_min, e_max]
  have e_des : d_desfree (effCi s) p = d_lotsfree (effCi s) p / 2 := by
    unfold d_desfree
    rw [hz4, tune_zero]
  have e_minf : d_minfree (effCi s) p =
      (if p.half then d_desfree (effCi s) p / 2
       else 3 * d_desfree (effCi s) p / 4) := by
    unfold d_minfree
    rw [hz5, tune_zero]
  have e_thr : d_throttlefree (effCi s) p = d_minfree (effCi s) p := by
    unfold d_throttlefree
    rw [hz6, tune_zero]
  have e_res : d_pageout_reserve (effCi s) p =
      (if p.half then d_throttlefree (effCi s) p / 2
       else 3 * d_throttlefree (effCi s) p / 4) := by
    unfold d_pageout_reserve
    rw [hz7, tune_zero]
  have e_mfs_pos : 1 ≤ d_maxfastscan (effCi s) p := by
    simp [d_maxfastscan, hz8]
    split <;> first | omega | decide
  have e_fast : d_fastscan (effCi s) p =
      min (p.total_pages / 2) (d_maxfastscan (effCi s) p) := by
    simp [d_fastscan, hz9, loopfraction]
  have h_fast_le : d_fastscan (effCi s) p ≤ p.total_pages / 2 := by
    rw [e_fast]
    omega
  have h_fast_pos : 1 ≤ d_fastscan (effCi s) p := by
    rw [e_fast]
    omega
  have e_hsp : d_handspreadpages (effCi s) p = d_fastscan (effCi s) p := by
    simp [d_handspreadpages, hz11]
    omega
  have h_slow : d_slowscan (effCi s) p ≤ d_fastscan (effCi s) p / 2 := by
    simp only [d_slowscan]
    split <;> split <;> omega
  have hdf : p.total_pages / p.fraction ≤ p.total_pages := Nat.div_le_self _ _
  refine ⟨?_, ?_, ?_, ?_, ?_, ?_, ?_, ?_, le_max_left _ _⟩
  · rw [g7, g6, e_res]
    split <;> omega
  · rw [g6, g5, e_thr]
  · rw [g5, g4, e_minf]
    split <;> omega
  · rw [g4, g3, e_des]
    omega
  · rw [g3, e_lots]
    unfold clamp
    split
    · omega
    · split <;> omega
  · rw [g11, g10]
    exact h_slow
  · rw [g12, e_hsp]
    omega
  · rw [g12, e_hsp]
    omega

/-- C1 counterexample: at total_pages = 100 (no overrides, boot call) the
claimed chain fails because lotsfree is computed as 4096 > 100. -/
theorem c1_counterexample :
    ¬ ((setupclock ⟨100, 0, 64, false⟩ bootZeroState).g.pageout_reserve ≤
        (setupclock ⟨100, 0, 64, false⟩ bootZeroState).g.throttlefree ∧
      (setupclock ⟨100, 0, 64, false⟩ bootZeroState).g.throttlefree ≤
        (setupclock ⟨100, 0, 64, false⟩ bootZeroState).g.minfree ∧
      (setupclock ⟨100, 0, 64, false⟩ bootZeroState).g.minfree ≤
        (setupclock ⟨100, 0, 64, false⟩ bootZeroState).g.desfree ∧
      (setupclock ⟨100, 0, 64, false⟩ bootZeroState).g.desfree ≤
        (setupclock ⟨100, 0, 64, false⟩ bootZeroState).g.lotsfree ∧
      (setupclock ⟨100, 0, 64, false⟩ bootZeroState).g.lotsfree ≤ 100) := by
  decide

/-- C1 witness: the amended chain at total_pages = 262144 (1 GiB), no
overrides, boot call, default duty-cycle percentages. -/
theorem c1_witness :
    CiZero (effCi bootZeroState) ∧ 1 ≤ (64 : Nat) ∧
    btop LOTSFREE_MIN_DEFAULT ≤ 262144 ∧
    ((setupclock ⟨262144, 0, 64, false⟩ bootZeroState).g.pageout_reserve ≤
        (setupclock ⟨262144, 0, 64, false⟩ bootZeroState).g.throttlefree ∧
      (setupclock ⟨262144, 0, 64, false⟩ bootZeroState).g.throttlefree ≤
        (setupclock ⟨262144, 0, 64, false⟩ bootZeroState).g.minfree ∧
      (setupclock ⟨262144, 0, 64, false⟩ bootZeroState).g.minfree ≤
        (setupclock ⟨262144, 0, 64, false⟩ bootZeroState).g.desfree ∧
      (setupclock ⟨262144, 0, 64, false⟩ bootZeroState).g.desfree ≤
        (setupclock ⟨262144, 0, 64, false⟩ bootZeroState).g.lotsfree ∧
      (setupclock ⟨262144, 0, 64, false⟩ bootZeroState).g.lotsfree ≤ 262144 ∧
      (setupclock ⟨262144, 0, 64, false⟩ bootZeroState).g.slowscan ≤
        (setupclock ⟨262144, 0, 64, false⟩ bootZeroState).g.fastscan / 2 ∧
      1 ≤ (setupclock ⟨262144, 0, 64, false⟩ bootZeroState).g.handspreadpages ∧
      (setupclock ⟨262144, 0, 64, false⟩ bootZeroState).g.handspreadpages < 262144 ∧
      minPageoutNsec 4 ≤ maxPageoutNsec 4 80) :=
  ⟨by decide, by decide, by decide,
    c1_threshold_chain ⟨262144, 0, 64, false⟩ bootZeroState _ 4 80 rfl
      (by decide) (by decide) (by decide)⟩

/-- C6 (amended): a recalculation call sizes the region as 64 GiB in pages
-- doubled handspreadpages only when handspreadpages alone exceeds the
64 GiB page count -- clamped down to total_pages, and sets
des_page_scanners to ⌈total_pages / region⌉ clamped to [1, 16]; a boot
call instead leaves des_page_scanners = n_page_scanners = 1. -/
theorem c6_scanner_sizing (p : SetupIn) (s st : SetupState)
    (hst : st = setupclock p s) (hT : 1 ≤ p.total_pages) :
    (s.ciInit = true →
      st.g.pscan_region_sz =
        min (if btop (64 * 1073741824) < st.g.handspreadpages then
              st.g.handspreadpages * 2
            else btop (64 * 1073741824)) p.total_pages ∧
      st.g.des_page_scanners =
        min ((p.total_pages + st.g.pscan_region_sz - 1) / st.g.pscan_region_sz)
          MAX_PSCAN_THREADS) ∧
    (s.ciInit = false →
      st.g.des_page_scanners = 1 ∧ st.g.n_page_scanners = 1 ∧
      st.g.pscan_region_sz = p.total_pages) := by
  subst hst
  obtain ⟨hrec, hboot⟩ := setupclock_g_scanners p s
  obtain ⟨-, -, -, -, -, -, -, -, -, -, -, g12⟩ := setupclock_g_thresholds p s
  refine ⟨fun h => ?_, hboot⟩
  obtain ⟨hdes, hreg, -⟩ := hrec h
  constructor
  · rw [hreg, g12, d_region_min]
  · rw [hdes, hreg, d_des_scanners_eq _ _ (by omega)]

/-- C6 counterexample: with handspreadpages = 2^24 (exactly 64 GiB in
pages) and total_pages = 2^26, the code computes a region of 2^24 pages,
not the claimed max(64 GiB in pages, 2·handspreadpages) = 2^25 clamped to
total_pages. -/
theorem c6_counterexample :
    ¬ ((setupclock ⟨67108864, 0, 64, false⟩ recalcHspState).g.pscan_region_sz =
        min (max (btop (64 * 1073741824))
          (2 * (setupclock ⟨67108864, 0, 64, false⟩ recalcHspState).g.handspreadpages))
          67108864) := by
  decide

/-- C6 witness: the amended region and scanner-count formulas at a
concrete recalculation call. -/
theorem c6_witness :
    (recalcHspState.ciInit = true) ∧ (1 ≤ (67108864 : Nat)) ∧
    ((setupclock ⟨67108864, 0, 64, false⟩ recalcHspState).g.pscan_region_sz =
      min (if btop (64 * 1073741824) <
            (setupclock ⟨67108864, 0, 64, false⟩ recalcHspState).g.handspreadpages then
            (setupclock ⟨67108864, 0, 64, false⟩ recalcHspState).g.handspreadpages * 2
          else btop (64 * 1073741824)) 67108864 ∧
     (setupclock ⟨67108864, 0, 64, false⟩ recalcHspState).g.des_page_scanners =
      min ((67108864 + (setupclock ⟨67108864, 0, 64, false⟩ recalcHspState).g.pscan_region_sz - 1) /
          (setupclock ⟨67108864, 0, 64, false⟩ recalcHspState).g.pscan_region_sz)
        MAX_PSCAN_THREADS) :=
  ⟨rfl, by decide,
    (c6_scanner_sizing ⟨67108864, 0, 64, false⟩ recalcHspState _ rfl (by decide)).1 rfl⟩

/-- Every setupclock call derives the seven ceiling-guarded thresholds
through tune() with the ceilings and defaults of the source, so each
satisfies the tuneSpec override contract. -/
theorem setupclock_tuneSpecs (p : SetupIn) (s st : SetupState)
    (hst : st = setupclock p s) :
    tuneSpec (effCi s).ci_lotsfree_max p.total_pages
      (btop LOTSFREE_MAX_DEFAULT) st.g.lotsfree_max ∧
    tuneSpec (effCi s).ci_lotsfree_min st.g.lotsfree_max
      (btop LOTSFREE_MIN_DEFAULT) st.g.lotsfree_min ∧
    tuneSpec (effCi s).ci_lotsfree p.total_pages
      (clamp (p.total_pages / p.fraction) st.g.lotsfree_min st.g.lotsfree_max)
      st.g.lotsfree ∧
    tuneSpec (effCi s).ci_desfree st.g.lotsfree (st.g.lotsfree / 2)
      st.g.desfree ∧
    tuneSpec (effCi s).ci_minfree st.g.desfree
      (if p.half then st.g.desfree / 2 else 3 * st.g.desfree / 4)
      st.g.minfree ∧
    tuneSpec (effCi s).ci_throttlefree st.g.desfree st.g.minfree
      st.g.throttlefree ∧
    tuneSpec (effCi s).ci_pageout_reserve st.g.throttlefree
      (if p.half then st.g.throttlefree / 2 else 3 * st.g.throttlefree / 4)
      st.g.pageout_reserve := by
  subst hst
  obtain ⟨g1, g2, g3, g4, g5, g6, g7, -, -, -, -, -⟩ :=
    setupclock_g_thresholds p s
  rw [g1, g2, g3, g4, g5, g6, g7]
  unfold d_pageout_reserve d_throttlefree d_minfree d_desfree d_lotsfree
    d_lotsfree_min d_lotsfree_max
  exact ⟨tune_tuneSpec _ _ _, tune_tuneSpec _ _ _, tune_tuneSpec _ _ _,
    tune_tuneSpec _ _ _, tune_tuneSpec _ _ _, tune_tuneSpec _ _ _,
    tune_tuneSpec _ _ _⟩

/-- C2: the seven ceiling-guarded tunables obey the override policy on
every setupclock call: the boot call snapshots the operator globals into
clockinit and honors each nonzero value below its ceiling verbatim
(collapsing zero, or a value at or above the ceiling, to the computed
default), and every call made from a state carrying that snapshot both
preserves the snapshot and applies the same policy -- hence every
subsequent recalculation still honors the overrides. -/
theorem c2_override_policy :
    (∀ (ci0 : ClockInit) (g0 : PageoutGlobals) (p : SetupIn),
      (setupclock p { ciInit := false, ci := ci0, g := g0 }).ciInit = true ∧
      (setupclock p { ciInit := false, ci := ci0, g := g0 }).ci = snapshot g0 ∧
      tuneSpecBlock g0 p (setupclock p { ciInit := false, ci := ci0, g := g0 }).g) ∧
    (∀ (g0 : PageoutGlobals) (s : SetupState) (p : SetupIn),
      s.ciInit = true → s.ci = snapshot g0 →
      (setupclock p s).ciInit = true ∧
      (setupclock p s).ci = snapshot g0 ∧
      tuneSpecBlock g0 p (setupclock p s).g) := by
  constructor
  · intro ci0 g0 p
    have hci0 : effCi { ciInit := false, ci := ci0, g := g0 } = snapshot g0 := by
      simp [effCi]
    refine ⟨setupclock_ciInit p _, by rw [setupclock_ci, hci0], ?_⟩
    have t := setupclock_tuneSpecs p { ciInit := false, ci := ci0, g := g0 } _ rfl
    rw [hci0] at t
    exact t
  · intro g0 s p hInit hsnap
    have hci : effCi s = snapshot g0 := by
      rw [effCi, hInit, if_pos rfl, hsnap]
    refine ⟨setupclock_ciInit p s, by rw [setupclock_ci, hci], ?_⟩
    have t := setupclock_tuneSpecs p s _ rfl
    rw [hci] at t
    exact t

/-- C2 witness: a lotsfree override of 5000 (nonzero, below its ceiling
total_pages = 262144) is still in effect after the boot call and a
subsequent recalculation call. -/
theorem c2_witness :
    (setupclock ⟨262144, 100, 64, false⟩
      (setupclock ⟨262144, 0, 64, false⟩
        { ciInit := false, ci := zeroCi, g := lotsfree5000Globals })).g.lotsfree =
      5000 := by
  obtain ⟨hInit, hsnap, -⟩ :=
    c2_override_policy.1 zeroCi lotsfree5000Globals ⟨262144, 0, 64, false⟩
  obtain ⟨-, -, -, -, h, -⟩ :=
    c2_override_policy.2 lotsfree5000Globals _ ⟨262144, 100, 64, false⟩
      hInit hsnap
  exact h.1 (by decide) (by decide)

theorem nz_eq_max (x : Nat) : nz x = max x 1 := by
  unfold nz
  split <;> omega

/-- A tick that wakes for low memory / calibration, or one with no zone
over its cap, publishes the computed desscan and pageout_nsec pair. -/
theorem schedTick_nonzone (s : SchedIn)
    (hbranch : s.zoneNumOverCap = 0 ∨ s.freemem < s.lotsfree + s.needfree ∨
      s.sampleCnt < s.sampleLim) :
    schedTick s =
      { desscan := schedDesscan s, pageout_nsec := schedNsec s,
        zones_over := false } := by
  unfold schedTick
  by_cases h1 : s.freemem < s.lotsfree + s.needfree ∨ s.sampleCnt < s.sampleLim
  · rw [if_pos h1]
  · rw [if_neg h1, if_neg (by omega)]

theorem schedVavail_le (s : SchedIn) : schedVavail s ≤ s.lotsfree := by
  unfold schedVavail
  rw [Int.toNat_le]
  exact le_trans (min_le_right _ _) (le_refl _)

/-- C4: whenever calibration is complete (pageout_new_spread nonzero) or
needfree is zero, schedpaging computes desscan by the interpolation
formula (slowscan·vavail + fastscan·(lotsfree − vavail)) / max(lotsfree,1)
/ SCHEDPAGING_HZ with vavail = clamp(freemem − deficit − (calibrated ?
needfree : 0), 0, lotsfree); any tick not taking the zone override
publishes exactly that value; and on the spec's S3 instance (lotsfree =
4000, slowscan = 500, fastscan = 5000, freemem = 2000, deficit = needfree
= 0, calibrated) vavail = 2000 and desscan = 687. -/
theorem c4_desscan_formula (s : SchedIn)
    (hcal : s.needfree = 0 ∨ s.spread ≠ 0) :
    (schedDesscan s =
      (s.slowscan * schedVavail s + s.fastscan * (s.lotsfree - schedVavail s)) /
        max s.lotsfree 1 / SCHEDPAGING_HZ ∧
     schedVavail s = Int.toNat (min (max ((s.freemem : Int) - (s.deficit : Int) -
        (if s.spread ≠ 0 then (s.needfree : Int) else 0)) 0) (s.lotsfree : Int)) ∧
     (s.zoneNumOverCap = 0 ∨ s.freemem < s.lotsfree + s.needfree ∨
        s.sampleCnt < s.sampleLim →
      (schedTick s).desscan = schedDesscan s)) ∧
    (schedVavail ⟨2000, 0, 0, 4000, 500, 5000, 262144, 1, 4, 4, 0, 1, 10, 0⟩ =
      2000 ∧
     schedDesscan ⟨2000, 0, 0, 4000, 500, 5000, 262144, 1, 4, 4, 0, 1, 10, 0⟩ =
      687) := by
  refine ⟨⟨?_, rfl, fun hb => by rw [schedTick_nonzone s hb]⟩, by decide, by decide⟩
  unfold schedDesscan
  rw [if_neg (by omega), nz_eq_max]

/-- C4 witness: the interpolation formula instantiated on the S3 tick. -/
theorem c4_witness :
    schedDesscan s3Tick =
      (s3Tick.slowscan * schedVavail s3Tick +
        s3Tick.fastscan * (s3Tick.lotsfree - schedVavail s3Tick)) /
        max s3Tick.lotsfree 1 / SCHEDPAGING_HZ :=
  (c4_desscan_formula s3Tick (Or.inl rfl)).1.1

/-- C5 (amended): on any tick that does not take the zone-cap override
branch (no zone over cap, or a low-memory / calibration wake), given the
setupclock invariants slowscan ≤ fastscan and min_pageout_nsec ≤
max_pageout_nsec, the published desscan lies in [0, fastscan /
SCHEDPAGING_HZ] and the published pageout_nsec lies in
[min_pageout_nsec, max_pageout_nsec].  (The zone-cap branch instead
publishes desscan = total_pages and pageout_nsec = zone_pageout_nsec.) -/
theorem c5_budget_bounds (s : SchedIn)
    (hslow : s.slowscan ≤ s.fastscan) (hminmax : s.minNsec ≤ s.maxNsec)
    (hbranch : s.zoneNumOverCap = 0 ∨ s.freemem < s.lotsfree + s.needfree ∨
      s.sampleCnt < s.sampleLim) :
    (schedTick s).desscan ≤ s.fastscan / SCHEDPAGING_HZ ∧
    s.minNsec ≤ (schedTick s).pageout_nsec ∧
    (schedTick s).pageout_nsec ≤ s.maxNsec := by
  rw [schedTick_nonzone s hbranch]
  dsimp only
  have hv := schedVavail_le s
  refine ⟨?_, ?_, ?_⟩
  · unfold schedDesscan
    split
    · exact le_refl _
    · by_cases hl : s.lotsfree = 0
      · have hv0 : schedVavail s = 0 := by omega
        rw [hv0, hl]
        simp [nz]
      · have hnum : s.slowscan * schedVavail s +
            s.fastscan * (s.lotsfree - schedVavail s) ≤
            s.fastscan * s.lotsfree := by
          calc s.slowscan * schedVavail s +
              s.fastscan * (s.lotsfree - schedVavail s) ≤
              s.fastscan * schedVavail s +
              s.fastscan * (s.lotsfree - schedVavail s) :=
                Nat.add_le_add_right (Nat.mul_le_mul_right _ hslow) _
            _ = s.fastscan * s.lotsfree := by
                rw [← Nat.mul_add, Nat.add_sub_cancel' hv]
        have hnz : nz s.lotsfree = s.lotsfree := by
          unfold nz
          rw [if_pos hl]
        rw [hnz]
        have step1 : (s.slowscan * schedVavail s +
            s.fastscan * (s.lotsfree - schedVavail s)) / s.lotsfree ≤
            s.fastscan := by
          calc (s.slowscan * schedVavail s +
              s.fastscan * (s.lotsfree - schedVavail s)) / s.lotsfree ≤
              s.fastscan * s.lotsfree / s.lotsfree :=
                Nat.div_le_div_right hnum
            _ = s.fastscan := by
                rw [Nat.mul_comm]
                exact Nat.mul_div_cancel_left _ (Nat.pos_of_ne_zero hl)
        exact Nat.div_le_div_right step1
  · unfold schedNsec
    split
    · exact hminmax
    · exact Nat.le_add_right _ _
  · unfold schedNsec
    split
    · exact le_refl _
    · by_cases hl : s.lotsfree = 0
      · have hz : s.lotsfree - schedVavail s = 0 := by omega
        rw [hz]
        simp
        omega
      · have hnz : nz s.lotsfree = s.lotsfree := by
          unfold nz
          rw [if_pos hl]
        rw [hnz]
        have hfrac : (s.lotsfree - schedVavail s) * (s.maxNsec - s.minNsec) /
            s.lotsfree ≤ s.maxNsec - s.minNsec := by
          calc (s.lotsfree - schedVavail s) * (s.maxNsec - s.minNsec) /
              s.lotsfree ≤
              s.lotsfree * (s.maxNsec - s.minNsec) / s.lotsfree :=
                Nat.div_le_div_right
                  (Nat.mul_le_mul_right _ (Nat.sub_le _ _))
            _ = s.maxNsec - s.minNsec :=
                Nat.mul_div_cancel_left _ (Nat.pos_of_ne_zero hl)
        omega

/-- C5 witness: the amended bounds on a concrete low-memory tick. -/
theorem c5_witness :
    (schedTick lowMemTick).desscan ≤ lowMemTick.fastscan / SCHEDPAGING_HZ ∧
    lowMemTick.minNsec ≤ (schedTick lowMemTick).pageout_nsec ∧
    (schedTick lowMemTick).pageout_nsec ≤ lowMemTick.maxNsec :=
  c5_budget_bounds lowMemTick (by decide) (by decide) (Or.inl rfl)

/-- C5 counterexample: with a zone over its cap and freemem above
lotsfree + needfree, the published desscan is total_pages = 262144, far
above fastscan / SCHEDPAGING_HZ = 1250, even though slowscan ≤ fastscan
and the duty-cycle window is sane. -/
theorem c5_counterexample :
    (schedTick zoneCapTick).desscan = 262144 ∧
    ¬ ((schedTick zoneCapTick).desscan ≤
        zoneCapTick.fastscan / SCHEDPAGING_HZ) := by
  decide

/-- When every pre-sync gate passes, checkpage proceeds to the
hat_pagesync-and-recheck phase. -/
theorem checkpage_reaches (zo : Bool) (env : PageEnv) (hand : PoHand)
    (pool : Pool) (hgate : reachesSync zo env) :
    checkpage zo env hand pool = ckEntry hand env pool := by
  obtain ⟨h1, h2, h3, h4, h5, h6⟩ := hgate
  unfold checkpage
  rw [if_neg h1, if_neg (by simp [h2]), if_neg (by simp [h3]),
    if_neg (by omega), if_neg ?_]
  rintro ⟨hzo, hor⟩
  obtain ⟨ha, hb⟩ := h6 hzo
  rcases hor with h | h
  · exact ha h
  · rw [hb] at h
    simp at h

theorem queue_zero_iff (p : Pool) :
    (queue_io_request p).1 = 0 ↔ p.freelist = 0 := by
  unfold queue_io_request
  split <;> simp_all

theorem queue_full_eq (p : Pool) (hf : p.freelist = 0) :
    (queue_io_request p).2 = p := by
  unfold queue_io_request
  rw [if_pos hf]

theorem ckDirty_nil (hand : PoHand) (env : PageEnv) (pool : Pool)
    (attrs : Attrs) :
    ckDirty hand env pool attrs [] =
      if attrs.mod = true ∧ env.hasVnode = true then
        if (queue_io_request pool).1 = 0 then
          some (.notFreed, [.vnhold, .unlock, .vnrele], (queue_io_request pool).2)
        else
          some (.freed, [.vnhold, .unlock, .queue], (queue_io_request pool).2)
      else none := rfl

theorem ckDirty_cons (hand : PoHand) (env : PageEnv) (pool : Pool)
    (attrs a : Attrs) (rest : List Attrs) :
    ckDirty hand env pool attrs (a :: rest) =
      if attrs.mod = true ∧ env.hasVnode = true then
        if (queue_io_request pool).1 = 0 then
          some (.notFreed, [.vnhold, .unlock, .vnrele], (queue_io_request pool).2)
        else
          some (.freed, [.vnhold, .unlock, .queue], (queue_io_request pool).2)
      else if a.ref = true ∨ (a.mod = true ∧ env.hasVnode = true) then
        if a.ref then
          some (.notFreed,
            (if hand = .front then [.clrref] else []) ++ [.unlock], pool)
        else ckDirty hand env pool a rest
      else some (.freed, [.dispose], pool) := rfl

/-- C3 (amended): for any page that reaches the attribute sync and any
hand, REF in the synced attributes makes checkpage return NOT_FREED after
unlocking, clearing the reference bit exactly under the front hand.  After
a successful large-page demotion, however, the reloaded attributes are not
re-tested for REF: control falls through to the dirty-page test, so a
reloaded MOD on a vnode-backed page takes the writeback handoff and (with
a queue slot free) returns FREED even when the reloaded attributes include
REF. -/
theorem c3_ref_keeps_page (zo : Bool) (env : PageEnv) (hand : PoHand)
    (pool : Pool) (hgate : reachesSync zo env) :
    (env.syncAttrs.ref = true →
      checkpage zo env hand pool =
        some (.notFreed,
          (if hand = .front then [.clrref] else []) ++ [.unlock], pool)) ∧
    (env.syncAttrs.ref = false → env.szc ≠ 0 → env.demoteOk = true →
      env.demoteAttrs.mod = true → env.hasVnode = true →
      pool.freelist ≠ 0 →
      checkpage zo env hand pool =
        some (.freed, [.vnhold, .unlock, .queue],
          (queue_io_request pool).2)) := by
  rw [checkpage_reaches zo env hand pool hgate]
  constructor
  · intro href
    unfold ckEntry
    rw [if_pos href]
  · intro href hszc hdem hmod hvn hpool
    unfold ckEntry
    rw [if_neg (by simp [href]), if_pos hszc, if_pos hdem]
    have hq : ¬ (queue_io_request pool).1 = 0 := by
      rw [queue_zero_iff]
      exact hpool
    cases hul : env.unloadAttrs with
    | nil => rw [ckDirty_nil, if_pos ⟨hmod, hvn⟩, if_neg hq]
    | cons a rest => rw [ckDirty_cons, if_pos ⟨hmod, hvn⟩, if_neg hq]

/-- C3 counterexample: a successfully demoted large page whose reloaded
attributes show REF and MOD takes the dirty handoff and is reported FREED
-- checkpage does not unlock-and-return NOT_FREED as claimed, because the
source falls through from the demotion reload to the P_MOD test without
re-running the recheck REF test. -/
theorem c3_counterexample :
    checkpage false envDemoteRef .front initPool =
      some (.freed, [.vnhold, .unlock, .queue],
        { freelist := 255, pending := 1, pushListSize := 1,
          inflight := false }) ∧
    ¬ (checkpage false envDemoteRef .front initPool =
        some (.notFreed,
          (if PoHand.front = PoHand.front then [PEvent.clrref] else []) ++
            [PEvent.unlock], initPool)) := by
  decide

/-- C3 witness: the synced-REF case on the front hand, and the
post-demotion fall-through on a dirty reloaded page. -/
theorem c3_witness :
    (checkpage false envRefFront .front initPool =
      some (.notFreed,
        (if PoHand.front = PoHand.front then [PEvent.clrref] else []) ++
          [PEvent.unlock], initPool)) ∧
    (checkpage false envDemoteRef .front initPool =
      some (.freed, [.vnhold, .unlock, .queue],
        (queue_io_request initPool).2)) :=
  ⟨(c3_ref_keeps_page false envRefFront .front initPool (by decide)).1 rfl,
   (c3_ref_keeps_page false envDemoteRef .front initPool (by decide)).2
     rfl (by decide) rfl rfl rfl (by decide)⟩

/-- Once past a successful trylock, every terminating run of the recheck
loop performs exactly one of page_unlock / VN_DISPOSE, and VN_DISPOSE only
on a FREED return. -/
theorem ckDirty_balance (hand : PoHand) (env : PageEnv) (pool : Pool) :
    ∀ (unloads : List Attrs) (attrs : Attrs) (r : CkResult)
      (tr : List PEvent) (pool' : Pool),
      ckDirty hand env pool attrs unloads = some (r, tr, pool') →
      tr.count .unlock + tr.count .dispose = 1 ∧
      (0 < tr.count .dispose → r = .freed) := by
  intro unloads
  induction unloads with
  | nil =>
    intro attrs r tr pool' h
    rw [ckDirty_nil] at h
    by_cases h2 : attrs.mod = true ∧ env.hasVnode = true
    · rw [if_pos h2] at h
      by_cases h3 : (queue_io_request pool).1 = 0
      · rw [if_pos h3] at h
        simp only [Option.some.injEq, Prod.mk.injEq] at h
        obtain ⟨hr, htr, hp⟩ := h
        subst hr htr
        decide
      · rw [if_neg h3] at h
        simp only [Option.some.injEq, Prod.mk.injEq] at h
        obtain ⟨hr, htr, hp⟩ := h
        subst hr htr
        decide
    · rw [if_neg h2] at h
      simp at h
  | cons a rest ih =>
    intro attrs r tr pool' h
    rw [ckDirty_cons] at h
    by_cases h2 : attrs.mod = true ∧ env.hasVnode = true
    · rw [if_pos h2] at h
      by_cases h3 : (queue_io_request pool).1 = 0
      · rw [if_pos h3] at h
        simp only [Option.some.injEq, Prod.mk.injEq] at h
        obtain ⟨hr, htr, hp⟩ := h
        subst hr htr
        decide
      · rw [if_neg h3] at h
        simp only [Option.some.injEq, Prod.mk.injEq] at h
        obtain ⟨hr, htr, hp⟩ := h
        subst hr htr
        decide
    · rw [if_neg h2] at h
      by_cases h4 : a.ref = true ∨ (a.mod = true ∧ env.hasVnode = true)
      · rw [if_pos h4] at h
        by_cases h5 : a.ref = true
        · rw [if_pos h5] at h
          simp only [Option.some.injEq, Prod.mk.injEq] at h
          obtain ⟨hr, htr, hp⟩ := h
          subst hr htr
          cases hand <;> decide
        · rw [if_neg h5] at h
          exact ih a r tr pool' h
      · rw [if_neg h4] at h
        simp only [Option.some.injEq, Prod.mk.injEq] at h
        obtain ⟨hr, htr, hp⟩ := h
        subst hr htr
        decide

/-- C10: whenever the lock-free fast rejection does not fire and the
trylock succeeds, every value checkpage returns comes with a trace holding
exactly one of page_unlock / VN_DISPOSE -- the exclusive lock is never
leaked -- and VN_DISPOSE happens only on the final FREED path. -/
theorem c10_lock_discipline (zo : Bool) (env : PageEnv) (hand : PoHand)
    (pool : Pool) (r : CkResult) (tr : List PEvent) (pool' : Pool)
    (hfast : ¬ fastReject env) (hlock : env.trylockOk = true)
    (h : checkpage zo env hand pool = some (r, tr, pool')) :
    tr.count .unlock + tr.count .dispose = 1 ∧
    (0 < tr.count .dispose → r = .freed) := by
  unfold checkpage at h
  rw [if_neg hfast, if_neg (by simp [hlock])] at h
  by_cases h3 : env.isfree2 = true
  · rw [if_pos h3] at h
    simp only [Option.some.injEq, Prod.mk.injEq] at h
    obtain ⟨hr, htr, hp⟩ := h
    subst hr htr
    decide
  · rw [if_neg h3] at h
    by_cases h4 : env.lckcnt2 ≠ 0 ∨ env.cowcnt2 ≠ 0
    · rw [if_pos h4] at h
      simp only [Option.some.injEq, Prod.mk.injEq] at h
      obtain ⟨hr, htr, hp⟩ := h
      subst hr htr
      decide
    · rw [if_neg h4] at h
      by_cases h5 : zo = true ∧ (env.zoneid = none ∨ env.zoneOverCap = false)
      · rw [if_pos h5] at h
        simp only [Option.some.injEq, Prod.mk.injEq] at h
        obtain ⟨hr, htr, hp⟩ := h
        subst hr htr
        decide
      · rw [if_neg h5] at h
        unfold ckEntry at h
        by_cases e1 : env.syncAttrs.ref = true
        · rw [if_pos e1] at h
          simp only [Option.some.injEq, Prod.mk.injEq] at h
          obtain ⟨hr, htr, hp⟩ := h
          subst hr htr
          cases hand <;> decide
        · rw [if_neg e1] at h
          by_cases e2 : env.szc ≠ 0
          · rw [if_pos e2] at h
            by_cases e3 : env.demoteOk = true
            · rw [if_pos e3] at h
              exact ckDirty_balance hand env pool env.unloadAttrs
                env.demoteAttrs r tr pool' h
            · rw [if_neg e3] at h
              simp only [Option.some.injEq, Prod.mk.injEq] at h
              obtain ⟨hr, htr, hp⟩ := h
              subst hr htr
              decide
          · rw [if_neg e2] at h
            exact ckDirty_balance hand env pool env.unloadAttrs
              env.syncAttrs r tr pool' h

/-- C10 witness: the front hand on a clean referenced page unlocks exactly
once and never disposes. -/
theorem c10_witness :
    ([PEvent.clrref, PEvent.unlock].count PEvent.unlock +
      [PEvent.clrref, PEvent.unlock].count PEvent.dispose = 1) ∧
    (0 < [PEvent.clrref, PEvent.unlock].count PEvent.dispose →
      CkResult.notFreed = CkResult.freed) :=
  c10_lock_discipline false envRefFront .front initPool .notFreed
    [.clrref, .unlock] initPool (by decide) rfl (by decide)

/-- C7: starting from the freshly initialized pool, every sequence of
under-lock pool operations (queue_io_request enqueue, master dequeue,
master slot return) keeps freelist + pending + in-flight (0 or 1) equal to
async_list_size = 256, keeps push_list_size equal to pending plus
in-flight, and keeps the pending list no longer than async_list_size;
each single operation preserves the balance. -/
theorem c7_pool_invariant :
    (∀ p q : Pool, PoolInv p → PoolStep p q →
      PoolInv q ∧ q.pending ≤ asyncListSize) ∧
    PoolInv initPool ∧
    (∀ p : Pool, Relation.ReflTransGen PoolStep initPool p →
      p.freelist + p.pending + (if p.inflight then 1 else 0) = asyncListSize ∧
      p.pushListSize = p.pending + (if p.inflight then 1 else 0) ∧
      p.pending ≤ asyncListSize) := by
  have hstep : ∀ p q : Pool, PoolInv p → PoolStep p q →
      PoolInv q ∧ q.pending ≤ asyncListSize := by
    intro p q hp hpq
    obtain ⟨hbal, hsz⟩ := hp
    cases hpq with
    | queue =>
      unfold queue_io_request
      by_cases hf : p.freelist = 0
      · rw [if_pos hf]
        refine ⟨⟨?_, ?_⟩, ?_⟩ <;>
          (try simp [asyncListSize] at hbal hsz ⊢) <;> omega
      · rw [if_neg hf]
        refine ⟨⟨?_, ?_⟩, ?_⟩ <;>
          (try simp [asyncListSize] at hbal hsz ⊢) <;> omega
    | dequeue hpend hf =>
      rw [hf] at hbal hsz
      refine ⟨⟨?_, ?_⟩, ?_⟩ <;>
        (try simp [asyncListSize] at hbal hsz ⊢) <;> omega
    | complete hf =>
      rw [hf] at hbal hsz
      refine ⟨⟨?_, ?_⟩, ?_⟩ <;>
        (try simp [asyncListSize] at hbal hsz ⊢) <;> omega
  have hinit : PoolInv initPool := by
    unfold PoolInv initPool
    simp
  refine ⟨hstep, hinit, ?_⟩
  intro p h
  have hinv : PoolInv p := by
    induction h with
    | refl => exact hinit
    | tail hab hbc ih => exact (hstep _ _ ih hbc).1
  obtain ⟨hbal, hsz⟩ := hinv
  refine ⟨hbal, hsz, ?_⟩
  unfold asyncListSize at *
  omega

/-- C7 witness: the balance after a single successful enqueue from the
initial pool. -/
theorem c7_witness :
    (255 : Nat) + 1 + (if false then 1 else 0) = asyncListSize ∧
    (1 : Nat) = 1 + (if false then 1 else 0) ∧
    (1 : Nat) ≤ asyncListSize :=
  c7_pool_invariant.2.2
    { freelist := 255, pending := 1, pushListSize := 1, inflight := false }
    (Relation.ReflTransGen.single (PoolStep.queue initPool))

set_option maxRecDepth 8192 in
/-- C8: queue_io_request returns 0 exactly when the freelist is empty and
then leaves the pool unchanged; checkpage's dirty handoff turns a 0 into
VN_RELE plus NOT_FREED and a 1 into FREED; and after 256 successful
enqueues fill every slot, the 257th call returns 0. -/
theorem c8_queue_saturation :
    (∀ p : Pool, (queue_io_request p).1 = 0 ↔ p.freelist = 0) ∧
    (∀ p : Pool, p.freelist = 0 → (queue_io_request p).2 = p) ∧
    (∀ (zo : Bool) (env : PageEnv) (hand : PoHand) (pool : Pool),
      reachesSync zo env → env.syncAttrs = ⟨false, true⟩ → env.szc = 0 →
      env.hasVnode = true →
      (pool.freelist = 0 →
        checkpage zo env hand pool =
          some (.notFreed, [.vnhold, .unlock, .vnrele], pool)) ∧
      (pool.freelist ≠ 0 →
        checkpage zo env hand pool =
          some (.freed, [.vnhold, .unlock, .queue], (queue_io_request pool).2))) ∧
    (queue_io_request
      ((fun q => (queue_io_request q).2)^[asyncListSize] initPool)).1 = 0 := by
  refine ⟨queue_zero_iff, queue_full_eq, ?_, by decide⟩
  intro zo env hand pool hgate hsync hszc hvn
  rw [checkpage_reaches zo env hand pool hgate]
  unfold ckEntry
  rw [hsync]
  rw [if_neg (by simp), if_neg (by omega)]
  constructor
  · intro hf
    cases hul : env.unloadAttrs with
    | nil =>
      rw [ckDirty_nil, if_pos (by simp [hvn]),
        if_pos ((queue_zero_iff pool).mpr hf), queue_full_eq pool hf]
    | cons a rest =>
      rw [ckDirty_cons, if_pos (by simp [hvn]),
        if_pos ((queue_zero_iff pool).mpr hf), queue_full_eq pool hf]
  · intro hf
    have hq : ¬ (queue_io_request pool).1 = 0 := by
      rw [queue_zero_iff pool]
      exact hf
    cases hul : env.unloadAttrs with
    | nil =>
      rw [ckDirty_nil, if_pos (by simp [hvn]), if_neg hq]
    | cons a rest =>
      rw [ckDirty_cons, if_pos (by simp [hvn]), if_neg hq]

/-- C8 witness: a dirty page handed to a pool with free slots is queued
and reported FREED, consuming one freelist slot. -/
theorem c8_witness :
    checkpage false envDirty .back initPool =
      some (.freed, [.vnhold, .unlock, .queue],
        { freelist := 255, pending := 1, pushListSize := 1,
          inflight := false }) :=
  ((c8_queue_saturation.2.2.1 false envDirty .back initPool
    (by decide) rfl rfl rfl).2 (by decide))

/-- The deadman state after k stuck seconds with a constant pushcount. -/
theorem deadman_iterate (ds pc : Nat) (hds : ds ≠ 0) :
    ∀ k : Nat, (deadmanStuckStep ds pc)^[k] ⟨0, pc⟩ =
      ⟨k, pc⟩ := by
  intro k
  induction k with
  | zero => rfl
  | succ k ih =>
    rw [Function.iterate_succ_apply', ih]
    unfold deadmanStuckStep pageout_deadman
    rw [if_neg (by simp), if_neg hds, if_neg (by simp), if_neg (by simp)]
    split <;> rfl

/-- C9: pageout_deadman panics exactly when a push is in flight, the
pushcount matches the last snapshot, the deadman is enabled, the system is
not already panicking, and the stuck counter is about to reach
pageout_deadman_seconds; a tick with no push in flight or a moved
pushcount instead resets the counter and snapshot without panicking, and a
disabled deadman or an ongoing panic leaves everything untouched.  With a
push permanently in flight and a constant pushcount from a synchronized
start, the panic fires exactly on check number pageout_deadman_seconds. -/
theorem c9_deadman_trip :
    (∀ (pk : Bool) (ds : Nat) (pu : Bool) (pc : Nat) (st : DeadmanState),
      ((pageout_deadman pk ds pu pc st).1 = true ↔
        (pk = false ∧ ds ≠ 0 ∧ pu = true ∧ pc = st.seen ∧
          ds ≤ st.stucktime + 1))) ∧
    (∀ (ds pc : Nat) (st : DeadmanState), ds ≠ 0 →
      pageout_deadman false ds false pc st = (false, ⟨0, pc⟩)) ∧
    (∀ (ds pc : Nat) (st : DeadmanState), ds ≠ 0 → pc ≠ st.seen →
      pageout_deadman false ds true pc st = (false, ⟨0, pc⟩)) ∧
    (∀ (ds : Nat) (pu : Bool) (pc : Nat) (st : DeadmanState),
      pageout_deadman true ds pu pc st = (false, st)) ∧
    (∀ (pu : Bool) (pc : Nat) (st : DeadmanState),
      pageout_deadman false 0 pu pc st = (false, st)) ∧
    (∀ (ds pc k : Nat), ds ≠ 0 →
      ((pageout_deadman false ds true pc
          ((deadmanStuckStep ds pc)^[k] ⟨0, pc⟩)).1 = true ↔ ds ≤ k + 1)) := by
  have hiff : ∀ (pk : Bool) (ds : Nat) (pu : Bool) (pc : Nat)
      (st : DeadmanState),
      ((pageout_deadman pk ds pu pc st).1 = true ↔
        (pk = false ∧ ds ≠ 0 ∧ pu = true ∧ pc = st.seen ∧
          ds ≤ st.stucktime + 1)) := by
    intro pk ds pu pc st
    unfold pageout_deadman
    cases pk
    · simp only [Bool.false_eq_true, if_false]
      by_cases h2 : ds = 0
      · rw [if_pos h2]
        simp [h2]
      · rw [if_neg h2]
        cases pu
        · simp
        · simp only [if_neg (by simp : ¬ (true = false))]
          by_cases h4 : pc ≠ st.seen
          · rw [if_pos h4]
            simp
            omega
          · rw [if_neg h4]
            split <;> simp_all
    · simp
  refine ⟨hiff, ?_, ?_, ?_, ?_, ?_⟩
  · intro ds pc st hds
    unfold pageout_deadman
    rw [if_neg (by simp), if_neg hds, if_pos rfl]
  · intro ds pc st hds hpc
    unfold pageout_deadman
    rw [if_neg (by simp), if_neg hds, if_neg (by simp), if_pos hpc]
  · intro ds pu pc st
    unfold pageout_deadman
    rw [if_pos rfl]
  · intro pu pc st
    unfold pageout_deadman
    rw [if_neg (by simp), if_pos rfl]
  · intro ds pc k hds
    rw [deadman_iterate ds pc hds k, hiff]
    simp [hds]

/-- C9 witness: with pageout_deadman_seconds = 3, a constant pushcount and
a synchronized start, the first two checks do not panic and the third
does. -/
theorem c9_witness :
    ¬ ((pageout_deadman false 3 true 7
        ((deadmanStuckStep 3 7)^[0] ⟨0, 7⟩)).1 = true) ∧
    ¬ ((pageout_deadman false 3 true 7
        ((deadmanStuckStep 3 7)^[1] ⟨0, 7⟩)).1 = true) ∧
    (pageout_deadman false 3 true 7
        ((deadmanStuckStep 3 7)^[2] ⟨0, 7⟩)).1 = true :=
  ⟨fun h => by
      have := (c9_deadman_trip.2.2.2.2.2 3 7 0 (by decide)).mp h
      omega,
   fun h => by
      have := (c9_deadman_trip.2.2.2.2.2 3 7 1 (by decide)).mp h
      omega,
   (c9_deadman_trip.2.2.2.2.2 3 7 2 (by decide)).mpr (by decide)⟩

end VMPageout
